import Mathlib

/-!
Verification of the Brazilian Roulette Assistant frontend.

The repository ships two frontend implementations of the same client:
a v4 script (given here as `src/unnamed/part_000`) and an earlier
`src/static/js/app.js`.  Both are plain JavaScript acting on a central
mutable state object.  Below, the pure helpers are embedded as Lean
functions and the stateful handlers as explicit state-passing functions
`AppState → inputs → AppState × Option Request`, where the `Option
Request` records whether (and with which payload) the handler issued an
HTTP request to the backend.  The backend's response is a parameter
(`ApiResponse`), since the handlers branch on `data.success` and on
network failure.

JavaScript `parseInt` semantics (leading whitespace skipped, optional
sign, optional `0x`/`0X` hexadecimal prefix when no radix is given, a
maximal leading digit run, `NaN` when that run is empty) are embedded as
`jsParseInt : String → Option Int`, with `none` playing `NaN`.  Exact
`Int` arithmetic agrees with JavaScript floats on every comparison
against the small bounds 0 and 36 used by this program.
-/

/-- The characters JavaScript `parseInt` skips before the number
(the inputs reaching `parseInt` in this app are already `.trim()`-ed,
so only ordinary whitespace matters). -/
def jsWhitespaceChar (c : Char) : Bool :=
  c = ' ' || c = '\t' || c = '\n' || c = '\r'

/-- Decimal digit value of a character, `none` when it is not a digit. -/
def decDigit? (c : Char) : Option Nat :=
  if '0' ≤ c ∧ c ≤ '9' then some (c.toNat - '0'.toNat) else none

/-- Hexadecimal digit value of a character, `none` when it is not one. -/
def hexDigit? (c : Char) : Option Nat :=
  if '0' ≤ c ∧ c ≤ '9' then some (c.toNat - '0'.toNat)
  else if 'a' ≤ c ∧ c ≤ 'f' then some (c.toNat - 'a'.toNat + 10)
  else if 'A' ≤ c ∧ c ≤ 'F' then some (c.toNat - 'A'.toNat + 10)
  else none

/-- Value of a digit run under a radix (digits already validated). -/
def digitRunVal (radix : Nat) (dv : Char → Option Nat) (ds : List Char) : Nat :=
  ds.foldl (fun a c => a * radix + ((dv c).getD 0)) 0

/-- JavaScript `parseInt(s)` (radix argument omitted, as in this app):
skip leading whitespace, read an optional sign, switch to base 16 after
a `0x`/`0X` prefix, then take the maximal run of digits of the base;
`none` models `NaN` (empty digit run). -/
def jsParseInt (s : String) : Option Int :=
  let cs := s.data.dropWhile jsWhitespaceChar
  let signed : Bool × List Char :=
    match cs with
    | '-' :: rest => (true, rest)
    | '+' :: rest => (false, rest)
    | _ => (false, cs)
  let based : Bool × List Char :=
    match signed.2 with
    | '0' :: 'x' :: rest => (true, rest)
    | '0' :: 'X' :: rest => (true, rest)
    | _ => (false, signed.2)
  let dv := if based.1 then hexDigit? else decDigit?
  let radix := if based.1 then 16 else 10
  let ds := based.2.takeWhile (fun c => (dv c).isSome)
  if ds.isEmpty then none
  else
    let v : Int := Int.ofNat (digitRunVal radix dv ds)
    some (if signed.1 then -v else v)

/-- `src/unnamed/part_000` lines 74–78, `isValidRouletteNumber(num)`:
`if (num === '00') return true; const n = parseInt(num);
return !isNaN(n) && n >= 0 && n <= 36;` -/
def isValidRouletteNumber (num : String) : Bool :=
  if num = "00" then true
  else
    match jsParseInt num with
    | none => false
    | some n => decide (0 ≤ n) && decide (n ≤ 36)

/-- `src/unnamed/part_000` line 23: the fixed red set, as the `Set`
literal's element list (membership below is `has`/`includes`). -/
def RED_NUMBERS : List Int :=
  [1, 3, 5, 7, 9, 12, 14, 16, 18, 19, 21, 23, 25, 27, 30, 32, 34, 36]

/-- `src/unnamed/part_000` lines 63–67, `getNumberColor(num)`:
`const n = parseInt(num); if (num === '0' || num === '00' || n === 0)
return 'green'; return RED_NUMBERS.has(n) ? 'red' : 'black';`
(`has(NaN)` is false, embedded by the `none` branch). -/
def getNumberColor (num : String) : String :=
  let n := jsParseInt num
  if num = "0" ∨ num = "00" ∨ n = some 0 then "green"
  else if (match n with | some k => RED_NUMBERS.contains k | none => false) then "red"
  else "black"

namespace AppJs

/-- `src/static/js/app.js` lines 121–122 and 212–213: the inline
validation shared by `addWarmupNumber` and `processSpin`:
`const numInt = parseInt(num);
if (isNaN(numInt) || numInt < 0 || numInt > 36) { reject }`.
This is the accepted-side of that test. -/
def numberInputCheck (num : String) : Bool :=
  match jsParseInt num with
  | none => false
  | some n => decide (0 ≤ n) && decide (n ≤ 36)

/-- `src/static/js/app.js` lines 47–51, `getNumberColor(num)`:
`if (num === '0' || num === '00') return 'green';
return redNumbers.includes(parseInt(num)) ? 'red' : 'black';`
with `redNumbers` the same 18-element array as `RED_NUMBERS`
(`includes` finds no `NaN` in that array, embedded by `none ↦ false`). -/
def getNumberColor (num : String) : String :=
  if num = "0" ∨ num = "00" then "green"
  else if (match jsParseInt num with | some k => RED_NUMBERS.contains k | none => false) then "red"
  else "black"

end AppJs

/-- `src/unnamed/part_000` lines 11–17: the central state object.
`strategies` is the checkbox map (insertion-ordered key/value pairs),
`bankroll` a JavaScript number embedded as `ℚ`. -/
structure AppState where
  bankroll : ℚ
  strategies : List (String × Bool)
  warmupNumbers : List String
  initialized : Bool
  currentScreen : String
deriving DecidableEq, Repr

/-- The state object as it is created at script load
(`src/unnamed/part_000` lines 11–17). -/
def initialAppState : AppState :=
  { bankroll := 0, strategies := [], warmupNumbers := [],
    initialized := false, currentScreen := "setup" }

/-- The backend requests the handlers can issue (`fetch` targets
`/api/initialize`, `/api/warmup`, `/api/spin`, `/api/reset`, with their
JSON payloads). -/
inductive Request where
  | apiInit (bankroll : ℚ) (strategies : List (String × Bool))
  | apiWarmup (numbers : List String)
  | apiSpin (number : String)
  | apiReset
deriving DecidableEq, Repr

/-- Outcome of a `fetch`: `success` is a 2xx reply with
`data.success = true`; `errorResp` a reply with `data.success` false (or
a non-ok status, surfaced the same way); `networkError` a rejected
promise (the `catch` branch). -/
inductive ApiResponse where
  | success
  | errorResp
  | networkError
deriving DecidableEq, Repr

/-- `src/unnamed/part_000` lines 209–263, `goToWarmup`: validate the
parsed bankroll (`!bankroll || bankroll <= 0`, with `NaN ↦ none`),
collect the checkbox map, require one checked strategy, save bankroll
and strategies into the state, then POST `/api/initialize`; on success
switch to the warmup screen (`showScreen` stores `"warmup"`), on an
error reply or network failure only a toast is shown — the saved
bankroll/strategies stay.  Returns the state after the handler and the
request it issued, if any. -/
def goToWarmup (st : AppState) (bankrollVal : Option ℚ)
    (strategies : List (String × Bool)) (resp : ApiResponse) :
    AppState × Option Request :=
  match bankrollVal with
  | none => (st, none)
  | some bankroll =>
    if bankroll ≤ 0 then (st, none)
    else if ¬ (strategies.any fun p => p.2) then (st, none)
    else
      let st1 := { st with bankroll := bankroll, strategies := strategies }
      match resp with
      | .success =>
          ({ st1 with currentScreen := "warmup" }, some (.apiInit bankroll strategies))
      | .errorResp => (st1, some (.apiInit bankroll strategies))
      | .networkError => (st1, some (.apiInit bankroll strategies))

/-- `src/unnamed/part_000` lines 273–303, `addWarmupNumber`: `num` is
`input.value.trim()`; empty input returns, an invalid number shows a
toast and returns, a full list (`length >= 12`) shows a toast and
returns, otherwise the number is pushed.  No request is issued. -/
def addWarmupNumber (st : AppState) (num : String) : AppState :=
  if num = "" then st
  else if ¬ isValidRouletteNumber num then st
  else if 12 ≤ st.warmupNumbers.length then st
  else { st with warmupNumbers := st.warmupNumbers ++ [num] }

/-- `src/unnamed/part_000` lines 308–313, `clearWarmup`:
`AppState.warmupNumbers = [];` (rest is display work). -/
def clearWarmup (st : AppState) : AppState :=
  { st with warmupNumbers := [] }

/-- `src/unnamed/part_000` lines 354–358, `removeWarmupNumber(index)`:
`AppState.warmupNumbers.splice(index, 1);` — the index is the list
position baked into the tag's `onclick` by `updateWarmupDisplay`, hence
non-negative. -/
def removeWarmupNumber (st : AppState) (index : Nat) : AppState :=
  { st with warmupNumbers :=
      st.warmupNumbers.take index ++ st.warmupNumbers.drop (index + 1) }

/-- `src/unnamed/part_000` lines 363–393, `startGame`: unless the
warmup list holds exactly 12 numbers, show a toast and stop; otherwise
POST `/api/warmup` with the list; on success set `initialized` and
switch to the game screen, otherwise only a toast is shown. -/
def startGame (st : AppState) (resp : ApiResponse) : AppState × Option Request :=
  if st.warmupNumbers.length ≠ 12 then (st, none)
  else
    match resp with
    | .success =>
        ({ st with initialized := true, currentScreen := "game" },
         some (.apiWarmup st.warmupNumbers))
    | .errorResp => (st, some (.apiWarmup st.warmupNumbers))
    | .networkError => (st, some (.apiWarmup st.warmupNumbers))

/-- `src/unnamed/part_000` lines 403–439, `processSpin`: `num` is
`input.value.trim()`; empty input returns, an invalid number shows a
toast and returns, otherwise POST `/api/spin`.  No branch writes to
`AppState` — `updateGameDisplay` only renders the response. -/
def processSpin (st : AppState) (num : String) (resp : ApiResponse) :
    AppState × Option Request :=
  if num = "" then (st, none)
  else if ¬ isValidRouletteNumber num then (st, none)
  else
    match resp with
    | .success => (st, some (.apiSpin num))
    | .errorResp => (st, some (.apiSpin num))
    | .networkError => (st, some (.apiSpin num))

/-- `src/unnamed/part_000` lines 639–667, `executeReset`: POST
`/api/reset`; on success zero the bankroll, empty strategies and warmup
list, clear `initialized` and return to the setup screen; on an error
reply or network failure the state is left as it was. -/
def executeReset (st : AppState) (resp : ApiResponse) : AppState × Option Request :=
  match resp with
  | .success =>
      ({ bankroll := 0, strategies := [], warmupNumbers := [],
         initialized := false, currentScreen := "setup" }, some .apiReset)
  | .errorResp => (st, some .apiReset)
  | .networkError => (st, some .apiReset)

/-- `src/unnamed/part_000` lines 564–579, `updateHistory(history)`:
renders nothing but a placeholder on an empty history, otherwise
renders `history.slice(-20).reverse()` — a fresh window (slice copies;
the argument array is untouched).  The result is the ordered list of
numbers rendered. -/
def updateHistory (history : List String) : List String :=
  if history.isEmpty then []
  else (history.drop (history.length - 20)).reverse

namespace AppJs

/-- `src/static/js/app.js` lines 354–369, `updateHistory`: the same
`slice(-20).reverse()` window as the v4 script. -/
def updateHistory (history : List String) : List String :=
  if history.isEmpty then []
  else (history.drop (history.length - 20)).reverse

end AppJs

/-- The single warmup-list operations available on the warmup screen
(`addWarmupNumber`, `removeWarmupNumber`, `clearWarmup`). -/
inductive WarmupOp where
  | add (num : String)
  | remove (index : Nat)
  | clear
deriving DecidableEq, Repr

/-- One warmup-screen event applied to the state. -/
def applyWarmupOp (st : AppState) : WarmupOp → AppState
  | .add num => addWarmupNumber st num
  | .remove i => removeWarmupNumber st i
  | .clear => clearWarmup st

/-- A sequence of warmup-screen events applied in order. -/
def applyWarmupOps (st : AppState) (ops : List WarmupOp) : AppState :=
  ops.foldl applyWarmupOp st

/-- Modelled from the spec: the table type, a configuration value of the
backend engine (`roulette_type ∈ {EUROPEAN, AMERICAN}`).  No frontend
file in the repository carries it. -/
inductive RouletteType where
  | EUROPEAN
  | AMERICAN
deriving DecidableEq, Repr

/-- Strict full-string decimal integer parse (optional sign, then only
digits): the reading of "parses to an integer in [0,36]" in claim C1,
as distinct from JavaScript prefix parsing. -/
def strictIntOfString (s : String) : Option Int :=
  let signed : Bool × List Char :=
    match s.data with
    | '-' :: rest => (true, rest)
    | '+' :: rest => (false, rest)
    | cs => (false, cs)
  if signed.2.isEmpty then none
  else if signed.2.all (fun c => (decDigit? c).isSome) then
    let v : Int := Int.ofNat (digitRunVal 10 decDigit? signed.2)
    some (if signed.1 then -v else v)
  else none

/-- Modelled from the spec: the acceptance predicate claim C1 asserts
for the number validation — a token passes iff it strictly parses to an
integer in [0,36], or is the sentinel "00" on an AMERICAN table ("00"
is rejected as invalid on a EUROPEAN table; the spec's resolver treats
"00" as a sentinel, not as the numeral 0).  The roulette-type
distinction lives in the backend engine, which is not among the
repository files under src/. -/
def specAccepts (rt : RouletteType) (tok : String) : Bool :=
  (tok ≠ "00" &&
    match strictIntOfString tok with
    | some n => decide (0 ≤ n) && decide (n ≤ 36)
    | none => false) ||
  (tok = "00" && rt = RouletteType.AMERICAN)

/-- The canonical number tokens "0" … "36" named by claims C2/C6/C10. -/
def canonicalTokens : List String :=
  ["0", "1", "2", "3", "4", "5", "6", "7", "8", "9", "10", "11", "12",
   "13", "14", "15", "16", "17", "18", "19", "20", "21", "22", "23",
   "24", "25", "26", "27", "28", "29", "30", "31", "32", "33", "34",
   "35", "36"]

/-- The red tokens listed by claim C6 (the 18-member red set). -/
def claimRedTokens : List String :=
  ["1", "3", "5", "7", "9", "12", "14", "16", "18", "19", "21", "23",
   "25", "27", "30", "32", "34", "36"]

/-- The remaining nonzero tokens in [1,36]: claim C6 calls them black. -/
def claimBlackTokens : List String :=
  ["2", "4", "6", "8", "10", "11", "13", "15", "17", "20", "22", "24",
   "26", "28", "29", "31", "33", "35"]


/-- The 12-number warmup list and the state holding it, used to witness
the size-guard theorems at a concrete input. -/
def twelveNumbers : List String :=
  ["1", "2", "3", "4", "5", "6", "7", "8", "9", "10", "11", "12"]

/-- A state whose warmup list is full (12 entries). -/
def warmupFullState : AppState :=
  { initialAppState with warmupNumbers := twelveNumbers }

/-- Helper: each single warmup-screen event preserves the warmup-list
invariant (length at most 12, all entries valid). -/
theorem applyWarmupOp_preserves (st : AppState) (op : WarmupOp)
    (h1 : st.warmupNumbers.length ≤ 12)
    (h2 : st.warmupNumbers.all isValidRouletteNumber = true) :
    (applyWarmupOp st op).warmupNumbers.length ≤ 12 ∧
    (applyWarmupOp st op).warmupNumbers.all isValidRouletteNumber = true := by
  cases op with
  | add num =>
    show (addWarmupNumber st num).warmupNumbers.length ≤ 12 ∧
      (addWarmupNumber st num).warmupNumbers.all isValidRouletteNumber = true
    unfold addWarmupNumber
    by_cases h0 : num = ""
    · rw [if_pos h0]; exact ⟨h1, h2⟩
    · rw [if_neg h0]
      by_cases hv : isValidRouletteNumber num = true
      · rw [if_neg (not_not_intro hv)]
        by_cases hlen : 12 ≤ st.warmupNumbers.length
        · rw [if_pos hlen]; exact ⟨h1, h2⟩
        · rw [if_neg hlen]
          refine ⟨?_, ?_⟩
          · simp only [List.length_append, List.length_cons, List.length_nil]
            omega
          · simp [List.all_append, h2, hv]
      · rw [if_pos hv]; exact ⟨h1, h2⟩
  | remove i =>
    show (removeWarmupNumber st i).warmupNumbers.length ≤ 12 ∧
      (removeWarmupNumber st i).warmupNumbers.all isValidRouletteNumber = true
    have hsub : List.Sublist
        (st.warmupNumbers.take i ++ st.warmupNumbers.drop (i + 1))
        st.warmupNumbers := by
      conv_rhs => rw [← List.take_append_drop i st.warmupNumbers]
      refine List.Sublist.append (List.Sublist.refl _) ?_
      rw [(List.drop_drop 1 i st.warmupNumbers).symm]
      exact List.drop_sublist 1 _
    refine ⟨le_trans hsub.length_le h1, ?_⟩
    rw [List.all_eq_true] at h2 ⊢
    intro x hx
    exact h2 x (hsub.subset hx)
  | clear =>
    exact ⟨by simp [applyWarmupOp, clearWarmup], by simp [applyWarmupOp, clearWarmup]⟩

/-- C1 counterexample: the claim's acceptance predicate (strict parse in
[0,36], "00" only on AMERICAN tables) disagrees with the validation the
input paths actually run.  "00" is accepted by `isValidRouletteNumber`
though the claim rejects it on a EUROPEAN table (the frontend has no
roulette-type state at all), and the malformed token "12abc" is
accepted (JavaScript `parseInt` reads the prefix 12) though the claim
rejects every malformed token on either table. -/
theorem C1_counterexample :
    isValidRouletteNumber "00" = true ∧
    specAccepts RouletteType.EUROPEAN "00" = false ∧
    isValidRouletteNumber "12abc" = true ∧
    specAccepts RouletteType.EUROPEAN "12abc" = false ∧
    specAccepts RouletteType.AMERICAN "12abc" = false := by decide

/-- C1 amended: the warmup and spin input paths run the same validation
(the v4 `isValidRouletteNumber` and the app.js inline check agree on
every token), and that validation accepts a token iff it equals "00"
(regardless of roulette type) or JavaScript `parseInt` reads from it a
value in [0,36] — so tokens with a numeric prefix such as "12abc" are
accepted; the roulette-type distinction of the spec is not present in
the frontend. -/
theorem C1_amended : ∀ tok : String,
    isValidRouletteNumber tok = AppJs.numberInputCheck tok ∧
    (isValidRouletteNumber tok = true ↔
      tok = "00" ∨ ∃ n : Int, jsParseInt tok = some n ∧ 0 ≤ n ∧ n ≤ 36) := by
  intro tok
  by_cases h00 : tok = "00"
  · subst h00
    exact ⟨by decide, by simp [isValidRouletteNumber]⟩
  · constructor
    · simp [isValidRouletteNumber, AppJs.numberInputCheck, h00]
    · simp only [isValidRouletteNumber, if_neg h00]
      cases hj : jsParseInt tok with
      | none => simp [h00, hj]
      | some n =>
        simp only [h00, hj, false_or, Bool.and_eq_true, decide_eq_true_eq,
          Option.some.injEq]
        constructor
        · rintro ⟨hl, hr⟩; exact ⟨n, rfl, hl, hr⟩
        · rintro ⟨m, hm, hl, hr⟩; cases hm; exact ⟨hl, hr⟩

/-- C2: every canonical token "0" … "36" passes both the v4
`isValidRouletteNumber` and the app.js inline check, while "37", "-1"
and "abc" fail both; both validators are pure functions of the token,
so the accept/reject result is deterministic by construction. -/
theorem C2_canonical_tokens :
    (canonicalTokens.all
      (fun t => isValidRouletteNumber t && AppJs.numberInputCheck t)) = true ∧
    isValidRouletteNumber "37" = false ∧
    isValidRouletteNumber "-1" = false ∧
    isValidRouletteNumber "abc" = false ∧
    AppJs.numberInputCheck "37" = false ∧
    AppJs.numberInputCheck "-1" = false ∧
    AppJs.numberInputCheck "abc" = false := by decide

/-- C3: `startGame` issues the `/api/warmup` request (carrying exactly
the collected list) iff the warmup list holds exactly 12 numbers, and
`addWarmupNumber` leaves a full list (12 or more entries) unchanged, so
a 13th number is never appended. -/
theorem C3_warmup_size :
    (∀ (st : AppState) (resp : ApiResponse),
      (startGame st resp).2 =
        if st.warmupNumbers.length = 12 then some (Request.apiWarmup st.warmupNumbers)
        else none) ∧
    (∀ (st : AppState) (num : String), 12 ≤ st.warmupNumbers.length →
      addWarmupNumber st num = st) := by
  constructor
  · intro st resp
    unfold startGame
    by_cases h : st.warmupNumbers.length = 12
    · rw [if_neg (not_not_intro h), if_pos h]
      cases resp <;> rfl
    · rw [if_pos h, if_neg h]
  · intro st num h
    unfold addWarmupNumber
    by_cases h0 : num = ""
    · rw [if_pos h0]
    · rw [if_neg h0]
      by_cases hv : isValidRouletteNumber num = true
      · rw [if_neg (not_not_intro hv), if_pos h]
      · rw [if_pos hv]

/-- C3 witness: at a concrete full list, `addWarmupNumber` refuses the
13th number. -/
theorem C3_witness :
    12 ≤ warmupFullState.warmupNumbers.length ∧
    addWarmupNumber warmupFullState "5" = warmupFullState :=
  ⟨by decide, C3_warmup_size.2 warmupFullState "5" (by decide)⟩

/-- C4: `goToWarmup` issues a request iff the parsed bankroll is a
number strictly greater than 0 (`none` embeds `NaN`) and some strategy
checkbox is checked; when it does, the request is `/api/initialize`
with that bankroll and strategy map. -/
theorem C4_setup_gate :
    (∀ (st : AppState) (bankrollVal : Option ℚ)
        (strategies : List (String × Bool)) (resp : ApiResponse),
      (goToWarmup st bankrollVal strategies resp).2.isSome =
        ((match bankrollVal with
          | none => false
          | some b => decide (0 < b)) && strategies.any (fun p => p.2))) ∧
    (∀ (st : AppState) (b : ℚ) (strategies : List (String × Bool))
        (resp : ApiResponse),
      0 < b → strategies.any (fun p => p.2) = true →
      (goToWarmup st (some b) strategies resp).2 =
        some (Request.apiInit b strategies)) := by
  constructor
  · intro st bkv strats resp
    cases bkv with
    | none => rfl
    | some b =>
      by_cases hb : b ≤ 0
      · have hnb : ¬ (0 < b) := not_lt.mpr hb
        simp [goToWarmup, hb, hnb]
      · have hb' : (0 : ℚ) < b := lt_of_not_le hb
        by_cases hs : (strats.any fun p => p.2) = true
        · cases resp <;> simp [goToWarmup, hb, hb', hs]
        · rw [Bool.not_eq_true] at hs
          simp [goToWarmup, hb, hs]
  · intro st b strats resp hb hs
    have hb2 : ¬ (b ≤ 0) := not_le.mpr hb
    cases resp <;> simp [goToWarmup, hb2, hs]

/-- C4 witness: a positive bankroll and one checked strategy issue the
`/api/initialize` request at a concrete input. -/
theorem C4_witness :
    (0 : ℚ) < 100 ∧ ([("COR", true)].any (fun p => p.2)) = true ∧
    (goToWarmup initialAppState (some 100) [("COR", true)] ApiResponse.success).2 =
      some (Request.apiInit 100 [("COR", true)]) :=
  ⟨by norm_num, by decide,
    C4_setup_gate.2 initialAppState 100 [("COR", true)] ApiResponse.success
      (by norm_num) (by decide)⟩

/-- C5 counterexample: an initialize call rejected by an error response
is not atomic.  `goToWarmup` saves the bankroll and strategies into the
state before issuing `/api/initialize`; when the backend answers with
an error the saved values stay, so the state differs from the state
before the call. -/
theorem C5_counterexample :
    (goToWarmup initialAppState (some 50) [("COR", true)] ApiResponse.errorResp).1
      ≠ initialAppState := by
  have hred : (goToWarmup initialAppState (some 50) [("COR", true)]
      ApiResponse.errorResp).1 =
      { initialAppState with bankroll := 50, strategies := [("COR", true)] } := by
    norm_num [goToWarmup]
  rw [hred]
  intro h
  have hb := congrArg AppState.bankroll h
  norm_num [initialAppState] at hb

/-- C5 amended: every locally rejected call is atomic (no request, no
state change), and rejected warmup, spin and reset calls leave the
state unchanged even when the rejection comes from an error response or
a network failure; the one exception is `goToWarmup`, which saves the
validated bankroll and strategies before the request, so an initialize
call rejected by an error response keeps those two fields. -/
theorem C5_amended_atomicity :
    (∀ (st : AppState) (bankrollVal : Option ℚ)
        (strategies : List (String × Bool)) (resp : ApiResponse),
      (goToWarmup st bankrollVal strategies resp).2 = none →
      (goToWarmup st bankrollVal strategies resp).1 = st) ∧
    (∀ (st : AppState) (resp : ApiResponse), resp ≠ ApiResponse.success →
      (startGame st resp).1 = st) ∧
    (∀ (st : AppState) (num : String) (resp : ApiResponse),
      (processSpin st num resp).1 = st) ∧
    (∀ (st : AppState) (resp : ApiResponse), resp ≠ ApiResponse.success →
      (executeReset st resp).1 = st) ∧
    (∀ (st : AppState) (b : ℚ) (strategies : List (String × Bool))
        (resp : ApiResponse),
      0 < b → (strategies.any fun p => p.2) = true → resp ≠ ApiResponse.success →
      (goToWarmup st (some b) strategies resp).1 =
        { st with bankroll := b, strategies := strategies }) := by
  refine ⟨?_, ?_, ?_, ?_, ?_⟩
  · intro st bkv strats resp hnone
    cases bkv with
    | none => rfl
    | some b =>
      by_cases hb : b ≤ 0
      · simp [goToWarmup, hb]
      · by_cases hs : (strats.any fun p => p.2) = true
        · exfalso
          cases resp <;> simp [goToWarmup, hb, hs] at hnone
        · rw [Bool.not_eq_true] at hs
          simp [goToWarmup, hb, hs]
  · intro st resp hne
    by_cases h12 : st.warmupNumbers.length = 12
    · cases resp with
      | success => exact absurd rfl hne
      | errorResp => simp [startGame, h12]
      | networkError => simp [startGame, h12]
    · simp [startGame, h12]
  · intro st num resp
    by_cases h0 : num = ""
    · simp [processSpin, h0]
    · by_cases hv : isValidRouletteNumber num = true
      · cases resp <;> simp [processSpin, h0, hv]
      · simp [processSpin, h0, hv]
  · intro st resp hne
    cases resp with
    | success => exact absurd rfl hne
    | errorResp => rfl
    | networkError => rfl
  · intro st b strats resp hb hs hne
    have hb2 : ¬ (b ≤ 0) := not_le.mpr hb
    cases resp with
    | success => exact absurd rfl hne
    | errorResp => simp [goToWarmup, hb2, hs]
    | networkError => simp [goToWarmup, hb2, hs]

/-- C5 witness: the amended atomicity applied at concrete inputs — a
locally rejected initialize (NaN bankroll) leaves the fresh state
unchanged, a warmup rejected by an error response leaves the full-list
state unchanged, and an initialize rejected by an error response keeps
the already-saved bankroll and strategies. -/
theorem C5_witness :
    ((goToWarmup initialAppState none [] ApiResponse.success).2 = none ∧
     (goToWarmup initialAppState none [] ApiResponse.success).1 = initialAppState) ∧
    (ApiResponse.errorResp ≠ ApiResponse.success ∧
     (startGame warmupFullState ApiResponse.errorResp).1 = warmupFullState) ∧
    ((0 : ℚ) < 50 ∧
     (goToWarmup initialAppState (some 50) [("COR", true)] ApiResponse.errorResp).1 =
       { initialAppState with bankroll := 50, strategies := [("COR", true)] }) :=
  ⟨⟨rfl, C5_amended_atomicity.1 initialAppState none [] ApiResponse.success rfl⟩,
   ⟨by decide, C5_amended_atomicity.2.1 warmupFullState ApiResponse.errorResp (by decide)⟩,
   ⟨by norm_num,
    C5_amended_atomicity.2.2.2.2 initialAppState 50 [("COR", true)]
      ApiResponse.errorResp (by norm_num) (by decide) (by decide)⟩⟩

/-- C6: the derived color is green exactly for the tokens "0" and "00",
red exactly on the fixed 18-member red set, and black on the remaining
nonzero tokens in [1,36]; `claimRedTokens`/`claimBlackTokens` partition
"1" … "36".  The derivation is a pure function of the token, hence
deterministic. -/
theorem C6_colors :
    getNumberColor "0" = "green" ∧ getNumberColor "00" = "green" ∧
    RED_NUMBERS.length = 18 ∧
    (claimRedTokens.all fun t => getNumberColor t == "red") = true ∧
    (claimBlackTokens.all fun t => getNumberColor t == "black") = true ∧
    claimRedTokens.length = 18 ∧ claimBlackTokens.length = 18 := by decide

/-- C7: `updateHistory` renders exactly the last `min 20 (length)`
numbers of the history, most recent first (it equals reverse-then-take-
20), for both frontend versions; the JavaScript `slice(-20)` copies, so
the history array passed in is never truncated — embedded here by the
render being a separate list computed from an untouched input. -/
theorem C7_history_window : ∀ history : List String,
    updateHistory history = history.reverse.take 20 ∧
    (updateHistory history).length = min 20 history.length ∧
    AppJs.updateHistory history = updateHistory history := by
  intro h
  have key : updateHistory h = h.reverse.take 20 := by
    unfold updateHistory
    by_cases he : h.isEmpty
    · rw [if_pos he]
      rw [List.isEmpty_iff] at he
      simp [he]
    · rw [if_neg he, List.reverse_drop]
      rcases le_or_lt h.length 20 with hc | hc
      · have hlen : h.length - (h.length - 20) = h.length := by omega
        rw [hlen, List.take_of_length_le (by simp),
          List.take_of_length_le (by simp [hc])]
      · have hlen : h.length - (h.length - 20) = 20 := by omega
        rw [hlen]
  refine ⟨key, ?_, rfl⟩
  rw [key]
  simp

/-- C8: after a successful reset every field of the client state equals
its fresh-session value (the state object as created at script load),
whatever the state was before — and the handler issued `/api/reset`. -/
theorem C8_reset_fresh : ∀ st : AppState,
    (executeReset st ApiResponse.success).1 = initialAppState ∧
    (executeReset st ApiResponse.success).2 = some Request.apiReset := by
  intro st
  exact ⟨rfl, rfl⟩

/-- C9: the warmup-list invariant — after any sequence of add, remove
and clear events starting from the fresh state, the list holds at most
12 entries and every entry passes `isValidRouletteNumber`. -/
theorem C9_warmup_invariant : ∀ ops : List WarmupOp,
    (applyWarmupOps initialAppState ops).warmupNumbers.length ≤ 12 ∧
    (applyWarmupOps initialAppState ops).warmupNumbers.all isValidRouletteNumber = true := by
  have main : ∀ (ops : List WarmupOp) (st : AppState),
      st.warmupNumbers.length ≤ 12 →
      st.warmupNumbers.all isValidRouletteNumber = true →
      (applyWarmupOps st ops).warmupNumbers.length ≤ 12 ∧
      (applyWarmupOps st ops).warmupNumbers.all isValidRouletteNumber = true := by
    intro ops
    induction ops with
    | nil => intro st h1 h2; exact ⟨h1, h2⟩
    | cons op rest ih =>
      intro st h1 h2
      have h := applyWarmupOp_preserves st op h1 h2
      exact ih (applyWarmupOp st op) h.1 h.2
  intro ops
  exact main ops initialAppState (by decide) (by decide)

/-- C10: the two frontend `getNumberColor` implementations agree on
every canonical token "0" … "36" and on "00". -/
theorem C10_color_agreement :
    (("00" :: canonicalTokens).all
      (fun t => getNumberColor t == AppJs.getNumberColor t)) = true := by decide
